import Mathlib

/-!
Verification of the LLM provider core of the screen-tutor repository.

The development shallow-embeds the provider layer (`src/providers/types.ts`,
`src/providers/registry.ts`, `src/providers/client.ts`, `src/providers/health.ts`)
in Lean: TypeScript interfaces become structures, JSON values become an explicit
inductive, and the network exchange of `callProvider` is abstracted as an input
describing what the `fetch` call did (resolved with a status and body, threw an
`Error`, or threw a non-`Error` value).  All definitions are executable.
-/

namespace ScreenTutor

/-! ## Data model (`src/providers/types.ts`) -/

/-- `ProviderTier` of types.ts: `'paid' | 'free' | 'local'`. -/
inductive ProviderTier where
  | paid
  | free
  | local
deriving DecidableEq, Repr

/-- The `rateLimit` record of `LLMProvider` / `ProviderConfig`. -/
structure RateLimit where
  requestsPerMin : Nat
  tokensPerMin : Nat
deriving DecidableEq, Repr

/-- `LLMProvider` of types.ts.  `customHeaders?: Record<string, string>` is an
`Option` of key/value pairs (`none` models an absent field). -/
structure LLMProvider where
  id : String
  name : String
  baseURL : String
  apiKey : String
  model : String
  tier : ProviderTier
  maxTokens : Option Nat
  rateLimit : Option RateLimit
  enabled : Bool
  customHeaders : Option (List (String × String))
deriving DecidableEq, Repr

/-- `MessageRole` of types.ts: `'system' | 'user' | 'assistant'`. -/
inductive MessageRole where
  | system
  | user
  | assistant
deriving DecidableEq, Repr

/-- `ContentPart` of types.ts: a text part or an image part (base64 data with an
optional media type). -/
inductive ContentPart where
  | text (text : String)
  | image (data : String) (mediaType : Option String)
deriving DecidableEq, Repr

/-- `MessageContent` of types.ts: a plain string or a list of parts. -/
inductive MessageContent where
  | str (s : String)
  | parts (ps : List ContentPart)
deriving DecidableEq, Repr

/-- `Message` of types.ts. -/
structure Message where
  role : MessageRole
  content : MessageContent
deriving DecidableEq, Repr

/-- `ChatCompletionChoice` of types.ts (`finish_reason: string | null`). -/
structure ChatCompletionChoice where
  index : Nat
  message : Message
  finish_reason : Option String
deriving DecidableEq, Repr

/-- `ChatCompletionUsage` of types.ts. -/
structure ChatCompletionUsage where
  prompt_tokens : Int
  completion_tokens : Int
  total_tokens : Int
deriving DecidableEq, Repr

/-- `ChatCompletionResponse` of types.ts (`usage?` is optional). -/
structure ChatCompletionResponse where
  id : String
  object : String
  created : Nat
  model : String
  choices : List ChatCompletionChoice
  usage : Option ChatCompletionUsage
deriving DecidableEq, Repr

/-- The closed error-code union of `ProviderError.code` in types.ts. -/
inductive ErrorCode where
  | rate_limit
  | auth_error
  | network_error
  | invalid_response
  | unknown
deriving DecidableEq, Repr

/-- `ProviderError` of types.ts.  `retryAfterMs?: number` is an optional
integral millisecond count. -/
structure ProviderError where
  providerId : String
  code : ErrorCode
  message : String
  retryAfterMs : Option Int
deriving DecidableEq, Repr

/-- `LLMResult` of types.ts: the tagged union
`{success: true, response, providerId} | {success: false, error}`. -/
inductive LLMResult where
  | success (response : ChatCompletionResponse) (providerId : String)
  | failure (error : ProviderError)
deriving DecidableEq, Repr

/-- `ProviderHealth.status` of types.ts. -/
inductive HealthStatus where
  | healthy
  | degraded
  | unhealthy
  | unknown
deriving DecidableEq, Repr

/-- `ProviderHealth` of types.ts. -/
structure ProviderHealth where
  providerId : String
  status : HealthStatus
  latencyMs : Option Nat
  lastChecked : Nat
  error : Option String
deriving DecidableEq, Repr

/-- `ProviderConfig` of types.ts (a registry entry). -/
structure ProviderConfig where
  id : String
  name : String
  baseURL : String
  defaultModel : String
  tier : ProviderTier
  requiresApiKey : Bool
  models : List String
  rateLimit : Option RateLimit
  customHeaders : Option (List (String × String))
  description : String
  supportsVision : Option Bool
deriving DecidableEq, Repr

/-! ## Provider registry (`src/providers/registry.ts`) -/

/-- `PROVIDER_CONFIGS` of registry.ts, field for field. -/
def PROVIDER_CONFIGS : List ProviderConfig := [
  { id := "anthropic", name := "Anthropic (Claude)",
    baseURL := "https://api.anthropic.com/v1",
    defaultModel := "claude-sonnet-4-5-20250514", tier := .paid,
    requiresApiKey := true,
    models := ["claude-sonnet-4-5-20250514", "claude-opus-4-20250514",
               "claude-3-5-haiku-20241022"],
    rateLimit := none,
    customHeaders := some [("anthropic-version", "2023-06-01")],
    description := "Best instruction following, teaching personality",
    supportsVision := some true },
  { id := "openai", name := "OpenAI",
    baseURL := "https://api.openai.com/v1",
    defaultModel := "gpt-4o", tier := .paid, requiresApiKey := true,
    models := ["gpt-4o", "gpt-4o-mini", "gpt-4-turbo", "gpt-4.1"],
    rateLimit := none, customHeaders := none,
    description := "Strong general reasoning", supportsVision := some true },
  { id := "google", name := "Google (Gemini)",
    baseURL := "https://generativelanguage.googleapis.com/v1beta/openai",
    defaultModel := "gemini-2.5-pro-preview-05-06", tier := .paid,
    requiresApiKey := true,
    models := ["gemini-2.5-pro-preview-05-06", "gemini-2.0-flash"],
    rateLimit := none, customHeaders := none,
    description := "Long context, multimodal fallback",
    supportsVision := some true },
  { id := "deepseek", name := "DeepSeek",
    baseURL := "https://api.deepseek.com/v1",
    defaultModel := "deepseek-chat", tier := .paid, requiresApiKey := true,
    models := ["deepseek-chat", "deepseek-reasoner"],
    rateLimit := none, customHeaders := none,
    description := "High quality, very cheap ($0.27/M input)",
    supportsVision := none },
  { id := "mistral", name := "Mistral",
    baseURL := "https://api.mistral.ai/v1",
    defaultModel := "mistral-large-latest", tier := .paid,
    requiresApiKey := true,
    models := ["mistral-large-latest", "mistral-medium-latest",
               "mistral-small-latest"],
    rateLimit := none, customHeaders := none,
    description := "Good European option, fast", supportsVision := none },
  { id := "groq", name := "Groq",
    baseURL := "https://api.groq.com/openai/v1",
    defaultModel := "llama-3.3-70b-versatile", tier := .free,
    requiresApiKey := true,
    models := ["llama-3.3-70b-versatile", "llama-3.1-8b-instant",
               "gemma2-9b-it", "mixtral-8x7b-32768"],
    rateLimit := some ⟨30, 15000⟩, customHeaders := none,
    description := "Fast inference, generous free tier (14,400 req/day)",
    supportsVision := none },
  { id := "openrouter", name := "OpenRouter",
    baseURL := "https://openrouter.ai/api/v1",
    defaultModel := "meta-llama/llama-3.3-70b-instruct:free", tier := .free,
    requiresApiKey := true,
    models := ["meta-llama/llama-3.3-70b-instruct:free",
               "google/gemma-3-27b-it:free",
               "qwen/qwen-2.5-72b-instruct:free",
               "mistralai/mistral-7b-instruct:free"],
    rateLimit := some ⟨20, 10000⟩,
    customHeaders := some [("HTTP-Referer", "https://screentutor.app"),
                           ("X-Title", "ScreenTutor")],
    description := "30+ free models (50 req/day free, 1000/day with $10 credit)",
    supportsVision := none },
  { id := "google-ai-studio", name := "Google AI Studio",
    baseURL := "https://generativelanguage.googleapis.com/v1beta/openai",
    defaultModel := "gemini-2.0-flash", tier := .free, requiresApiKey := true,
    models := ["gemini-2.0-flash", "gemini-1.5-flash"],
    rateLimit := none, customHeaders := none,
    description := "Generous free quota", supportsVision := some true },
  { id := "ollama", name := "Ollama (Local)",
    baseURL := "http://localhost:11434/v1",
    defaultModel := "llama3.3:8b", tier := .local, requiresApiKey := false,
    models := ["llama3.3:8b", "llama3.3:70b", "mistral:7b", "qwen2.5:7b",
               "deepseek-r1:7b"],
    rateLimit := none, customHeaders := none,
    description := "Fully local, no internet needed", supportsVision := none },
  { id := "lmstudio", name := "LM Studio (Local)",
    baseURL := "http://localhost:1234/v1",
    defaultModel := "local-model", tier := .local, requiresApiKey := false,
    models := ["local-model"], rateLimit := none, customHeaders := none,
    description := "GUI app, drag-and-drop model loading",
    supportsVision := none }]

/-- `getProviderById` of registry.ts. -/
def getProviderById (id : String) : Option ProviderConfig :=
  PROVIDER_CONFIGS.find? (fun p => p.id = id)

/-- `DEFAULT_FALLBACK_ORDER` of registry.ts. -/
def DEFAULT_FALLBACK_ORDER : List String :=
  ["groq", "openrouter", "google-ai-studio", "ollama"]

/-! ## A model of untyped JSON values

`client.ts` handles error bodies as `unknown` and inspects them with `typeof`,
`in` and property reads.  `JsonValue` is the value universe those operations
act on; numbers are modelled as integers (every number a claim exercises is
integral). -/

/-- An untyped JSON value. -/
inductive JsonValue where
  | null
  | bool (b : Bool)
  | num (n : Int)
  | str (s : String)
  | arr (elems : List JsonValue)
  | obj (fields : List (String × JsonValue))

/-- `typeof v === 'object' && v !== null`: true exactly for objects and arrays. -/
def jsIsNonNullObject : JsonValue → Bool
  | .obj _ => true
  | .arr _ => true
  | _ => false

/-- The `in` operator on an object; property names never index arrays here. -/
def jsHasField : JsonValue → String → Bool
  | .obj fields, k => fields.any (fun kv => kv.1 = k)
  | _, _ => false

/-- Property read `v[k]`: `none` models `undefined`.  JSON objects are assumed
to have distinct keys (what `JSON.parse` produces after duplicate-key
resolution). -/
def jsGetField : JsonValue → String → Option JsonValue
  | .obj fields, k => (fields.find? (fun kv => kv.1 = k)).map (fun kv => kv.2)
  | _, _ => none

/-! ## Invocation client (`src/providers/client.ts`) -/

def DEFAULT_TIMEOUT_MS : Nat := 30000

def DEFAULT_MAX_TOKENS : Nat := 2048

/-- `isAnthropicProvider` of client.ts. -/
def isAnthropicProvider (provider : LLMProvider) : Bool :=
  provider.id = "anthropic"

/-- `getTextContent` of client.ts: plain strings pass through; a part list keeps
the text parts and joins them with a newline. -/
def getTextContent : MessageContent → String
  | .str s => s
  | .parts ps =>
      String.intercalate "\n"
        (ps.filterMap (fun p => match p with
          | .text t => some t
          | .image _ _ => none))

/-- One translated standard-family content part. -/
inductive OpenAIPart where
  | text (text : String)
  | image_url (url : String)
deriving DecidableEq, Repr

/-- The wire shape of a message content in the standard (OpenAI-compatible)
family: a string, or `{type:'text', text}` / `{type:'image_url',
image_url:{url:'data:<mime>;base64,<data>'}}` parts. -/
inductive OpenAIContent where
  | str (s : String)
  | parts (ps : List OpenAIPart)
deriving DecidableEq, Repr

/-- `toOpenAIContent` of client.ts.  `part.mediaType || 'image/png'` is JS
truthiness: an absent or empty media type defaults to PNG. -/
def toOpenAIContent : MessageContent → OpenAIContent
  | .str s => .str s
  | .parts ps =>
      .parts (ps.map (fun part => match part with
        | .text t => .text t
        | .image data mediaType =>
            let mt := match mediaType with
              | some m => if m = "" then "image/png" else m
              | none => "image/png"
            .image_url ("data:" ++ mt ++ ";base64," ++ data)))

/-- One translated divergent-family content part. -/
inductive AnthropicPart where
  | text (text : String)
  | image (media_type : String) (data : String)
deriving DecidableEq, Repr

/-- The wire shape of a message content in the divergent (Anthropic) family:
a string, or `{type:'text', text}` / `{type:'image',
source:{type:'base64', media_type, data}}` parts. -/
inductive AnthropicContent where
  | str (s : String)
  | parts (ps : List AnthropicPart)
deriving DecidableEq, Repr

/-- `toAnthropicContent` of client.ts, with the same `|| 'image/png'`
truthiness default as `toOpenAIContent`. -/
def toAnthropicContent : MessageContent → AnthropicContent
  | .str s => .str s
  | .parts ps =>
      .parts (ps.map (fun part => match part with
        | .text t => .text t
        | .image data mediaType =>
            let mt := match mediaType with
              | some m => if m = "" then "image/png" else m
              | none => "image/png"
            .image mt data))

/-- The record `transformForAnthropic` returns: optional top-level `system`
text, the non-system turns, and `max_tokens`. -/
structure AnthropicBody where
  system : Option String
  messages : List (MessageRole × AnthropicContent)
  max_tokens : Nat
deriving DecidableEq, Repr

/-- `transformForAnthropic` of client.ts: the first system-role message (if
any) becomes the top-level `system` field via `getTextContent`; the `messages`
array keeps exactly the non-system messages, translated; `max_tokens` is the
value the caller resolved. -/
def transformForAnthropic (messages : List Message) (maxTokens : Nat) :
    AnthropicBody where
  system := (messages.find? (fun m => m.role = MessageRole.system)).map
    (fun m => getTextContent m.content)
  messages := (messages.filter (fun m => ¬ m.role = MessageRole.system)).map
    (fun m => (m.role, toAnthropicContent m.content))
  max_tokens := maxTokens

/-- A built header map.  JS objects assign in place; an append-list with a
last-binding-wins lookup (`headerLookup`) has the same read semantics, so each
`Object.assign` step becomes a list append. -/
def headerLookup (headers : List (String × String)) (k : String) :
    Option String :=
  (headers.reverse.find? (fun kv => kv.1 = k)).map (fun kv => kv.2)

/-- `buildHeaders` of client.ts: a JSON content type, then the credential
header when the key is nonempty (`if (provider.apiKey)` — JS truthiness), then
`Object.assign` of the instance's `customHeaders`, then `Object.assign` of the
registry config's `customHeaders`. -/
def buildHeaders (provider : LLMProvider) : List (String × String) :=
  let headers : List (String × String) := [("Content-Type", "application/json")]
  let headers :=
    if provider.apiKey = "" then headers
    else if isAnthropicProvider provider then
      headers ++ [("x-api-key", provider.apiKey)]
    else
      headers ++ [("Authorization", "Bearer " ++ provider.apiKey)]
  let headers := headers ++ (provider.customHeaders.getD [])
  headers ++ (match getProviderById provider.id with
    | some config => config.customHeaders.getD []
    | none => [])

/-- The option object accepted by `callProvider` (and, for its first two
fields, by `buildRequestBody`).  Temperature is only ever passed through, so
its numeric type is immaterial; it is modelled as an integer. -/
structure CallOptions where
  maxTokens : Option Nat := none
  temperature : Option Int := none
  timeoutMs : Option Nat := none
deriving DecidableEq, Repr

/-- The JSON request body `buildRequestBody` stringifies, one constructor per
wire family (`JSON.stringify` itself is serialization and not modelled). -/
inductive RequestBody where
  | anthropic (model : String) (body : AnthropicBody) (temperature : Option Int)
  | openai (model : String) (messages : List (MessageRole × OpenAIContent))
      (max_tokens : Nat) (temperature : Option Int)
deriving DecidableEq, Repr

/-- `buildRequestBody` of client.ts: resolves `max_tokens` as
`options.maxTokens ?? provider.maxTokens ?? DEFAULT_MAX_TOKENS`, then builds
the divergent-family body via `transformForAnthropic` or the standard-family
body via `toOpenAIContent`. -/
def buildRequestBody (provider : LLMProvider) (messages : List Message)
    (options : CallOptions) : RequestBody :=
  let maxTokens := options.maxTokens.getD (provider.maxTokens.getD DEFAULT_MAX_TOKENS)
  if isAnthropicProvider provider then
    .anthropic provider.model (transformForAnthropic messages maxTokens)
      options.temperature
  else
    .openai provider.model
      (messages.map (fun m => (m.role, toOpenAIContent m.content)))
      maxTokens options.temperature

/-- `getEndpointUrl` of client.ts. -/
def getEndpointUrl (provider : LLMProvider) : String :=
  if isAnthropicProvider provider then provider.baseURL ++ "/messages"
  else provider.baseURL ++ "/chat/completions"

/-- `parseError` of client.ts.  Notes on JS semantics kept by the model:
`retryAfter ? retryAfter * 1000 : 60000` treats `0` as falsy, so a present but
zero `retry_after` still yields 60000; `retry_after` is typed `number`, so a
non-numeric value in that field is not modelled.  The message extraction for
the `invalid_response` branch uses the nested `{error:{message}}` object when
`body.error` is a non-null object (and keeps the generic message when that
object has no string `message`), otherwise falls back to a top-level string
`message` field, otherwise stays generic. -/
def parseError (provider : LLMProvider) (status : Nat) (errorBody : JsonValue) :
    ProviderError :=
  if status = 401 ∨ status = 403 then
    { providerId := provider.id, code := .auth_error,
      message := "Invalid API key or unauthorized access", retryAfterMs := none }
  else if status = 429 then
    let retryAfter : Option Int :=
      if jsIsNonNullObject errorBody ∧ jsHasField errorBody "retry_after" then
        match jsGetField errorBody "retry_after" with
        | some (.num n) => some n
        | _ => none
      else none
    let retryAfterMs : Int :=
      match retryAfter with
      | some n => if n = 0 then 60000 else n * 1000
      | none => 60000
    { providerId := provider.id, code := .rate_limit,
      message := "Rate limit exceeded", retryAfterMs := some retryAfterMs }
  else if 500 ≤ status then
    { providerId := provider.id, code := .network_error,
      message := "Server error: " ++ toString status, retryAfterMs := none }
  else
    let fallback := "Request failed with status " ++ toString status
    let message :=
      if jsIsNonNullObject errorBody then
        match jsGetField errorBody "error" with
        | some e =>
          if jsIsNonNullObject e then
            match jsGetField e "message" with
            | some (.str m) => m
            | _ => fallback
          else
            match jsGetField errorBody "message" with
            | some (.str m) => m
            | _ => fallback
        | none =>
          match jsGetField errorBody "message" with
          | some (.str m) => m
          | _ => fallback
      else fallback
    { providerId := provider.id, code := .invalid_response,
      message := message, retryAfterMs := none }

/-- One content block of a raw divergent-family (Anthropic) response. -/
structure AnthropicContentBlock where
  type : String
  text : String
deriving DecidableEq, Repr

/-- The `usage` record of a raw divergent-family response. -/
structure AnthropicUsage where
  input_tokens : Int
  output_tokens : Int
deriving DecidableEq, Repr

/-- The raw divergent-family response shape `transformAnthropicResponse` casts
its argument to. -/
structure AnthropicRawResponse where
  id : String
  content : List AnthropicContentBlock
  model : String
  stop_reason : String
  usage : AnthropicUsage
deriving DecidableEq, Repr

/-- `transformAnthropicResponse` of client.ts.  `created: Date.now()` is an
ambient clock read, passed in as `now`.  `textContent?.text ?? ''` is the
mapped-with-default read of the first text-typed block. -/
def transformAnthropicResponse (now : Nat) (r : AnthropicRawResponse) :
    ChatCompletionResponse where
  id := r.id
  object := "chat.completion"
  created := now
  model := r.model
  choices := [{ index := 0,
                message := { role := .assistant,
                             content := .str (((r.content.find?
                               (fun c => c.type = "text")).map
                                 (fun c => c.text)).getD "") },
                finish_reason := some r.stop_reason }]
  usage := some { prompt_tokens := r.usage.input_tokens,
                  completion_tokens := r.usage.output_tokens,
                  total_tokens := r.usage.input_tokens + r.usage.output_tokens }

/-- What the single `fetch` exchange inside `callProvider` did, abstracting
the network.  `response` is a resolved HTTP response: its status, the result
of `response.json()` (`Except.error` carries the `SyntaxError` message of a
JSON-parse failure) and the `response.text()` view used as the fallback error
body.  `thrownError` is a rejection with a JS `Error` (name and message) —
`name = "AbortError"` is the timeout abort; `thrownOther` is a rejection with
a non-`Error` value. -/
inductive FetchOutcome where
  | response (status : Nat) (jsonBody : Except String JsonValue)
      (textBody : String)
  | thrownError (name : String) (message : String)
  | thrownOther

/-- Property read returning a string, `""` for anything else (only used to
model the unchecked casts on 2xx bodies; no claim depends on it). -/
def jsStr (v : JsonValue) (k : String) : String :=
  match jsGetField v k with
  | some (.str s) => s
  | _ => ""

/-- Property read returning an integer, `0` for anything else (same scope as
`jsStr`). -/
def jsInt (v : JsonValue) (k : String) : Int :=
  match jsGetField v k with
  | some (.num n) => n
  | _ => 0

/-- Reading of a parsed 2xx divergent-family body as the raw shape the source
casts to.  The source reads `r.content` and `r.usage` unchecked; a body where
they are not an array resp. an object would throw a `TypeError` inside the
`try` block, modelled by `none` here.  The remaining fields are read leniently
(the source would propagate `undefined` instead); no claim exercises an
ill-formed 2xx body. -/
def readAnthropicRaw (v : JsonValue) : Option AnthropicRawResponse :=
  match jsGetField v "content", jsGetField v "usage" with
  | some (.arr blocks), some (.obj usageFields) =>
      some { id := jsStr v "id",
             content := blocks.map (fun b => ⟨jsStr b "type", jsStr b "text"⟩),
             model := jsStr v "model",
             stop_reason := jsStr v "stop_reason",
             usage := ⟨jsInt (.obj usageFields) "input_tokens",
                       jsInt (.obj usageFields) "output_tokens"⟩ }
  | _, _ => none

/-- Reading of a message role string (the unchecked cast keeps whatever string
arrived; the model folds unknown strings to `user` — no claim depends on it). -/
def readRole (s : String) : MessageRole :=
  if s = "system" then .system
  else if s = "assistant" then .assistant
  else .user

/-- Reading of a parsed 2xx standard-family body as `ChatCompletionResponse`,
modelling the source's unchecked `data as ChatCompletionResponse`.  The cast
performs no checks, so this reading is total: fields missing or of the wrong
shape become neutral defaults (non-string message contents become an empty
part list — indistinguishable from the JS value by `getResponseText`, the only
consumer in the repository). -/
def readChatCompletion (v : JsonValue) : ChatCompletionResponse where
  id := jsStr v "id"
  object := jsStr v "object"
  created := (jsInt v "created").toNat
  model := jsStr v "model"
  choices :=
    match jsGetField v "choices" with
    | some (.arr cs) => cs.map (fun c =>
        { index := (jsInt c "index").toNat,
          message :=
            let m := (jsGetField c "message").getD .null
            { role := readRole (jsStr m "role"),
              content := match jsGetField m "content" with
                | some (.str s) => .str s
                | _ => .parts [] },
          finish_reason := match jsGetField c "finish_reason" with
            | some (.str s) => some s
            | _ => none })
    | _ => []
  usage :=
    match jsGetField v "usage" with
    | some (.obj us) => some ⟨jsInt (.obj us) "prompt_tokens",
                              jsInt (.obj us) "completion_tokens",
                              jsInt (.obj us) "total_tokens"⟩
    | _ => none

/-- `callProvider` of client.ts over an abstracted fetch exchange.  `now` is
the clock read `transformAnthropicResponse` uses for `created`.  The structure
mirrors the source: resolve the timeout (`options.timeoutMs ?? 30000`); on a
non-ok status parse the error body (falling back to the text body when JSON
parsing failed) through `parseError`; on an ok status normalize the body (the
divergent family through `transformAnthropicResponse`, the standard family by
the unchecked cast); in the catch branch map an `AbortError` to a timeout
`network_error`, any other `Error` to a `network_error` carrying its message,
and a non-`Error` value to `unknown`. -/
def callProvider (provider : LLMProvider) (messages : List Message)
    (options : CallOptions) (outcome : FetchOutcome) (now : Nat) : LLMResult :=
  let _ := messages
  let timeoutMs := options.timeoutMs.getD DEFAULT_TIMEOUT_MS
  match outcome with
  | .response status jsonBody textBody =>
    if 200 ≤ status ∧ status ≤ 299 then
      match jsonBody with
      | .error parseMsg =>
          -- response.json() threw a SyntaxError inside the try block
          .failure { providerId := provider.id, code := .network_error,
                     message := parseMsg, retryAfterMs := none }
      | .ok data =>
        if isAnthropicProvider provider then
          match readAnthropicRaw data with
          | some raw => .success (transformAnthropicResponse now raw) provider.id
          | none =>
              -- the unchecked cast threw a TypeError inside the try block
              .failure { providerId := provider.id, code := .network_error,
                         message := "TypeError: malformed provider response",
                         retryAfterMs := none }
        else
          .success (readChatCompletion data) provider.id
    else
      let errorBody : JsonValue :=
        match jsonBody with
        | .ok v => v
        | .error _ => .str textBody
      .failure (parseError provider status errorBody)
  | .thrownError name message =>
    if name = "AbortError" then
      .failure { providerId := provider.id, code := .network_error,
                 message := "Request timed out after " ++ toString timeoutMs
                   ++ "ms",
                 retryAfterMs := none }
    else
      .failure { providerId := provider.id, code := .network_error,
                 message := message, retryAfterMs := none }
  | .thrownOther =>
      .failure { providerId := provider.id, code := .unknown,
                 message := "Unknown error occurred", retryAfterMs := none }

/-- `getResponseText` of client.ts:
`response.choices[0]?.message?.content ?? ''`, then strings pass through and
anything else becomes the empty string. -/
def getResponseText (response : ChatCompletionResponse) : String :=
  let content := ((response.choices.head?).map
    (fun choice => choice.message.content)).getD (.str "")
  match content with
  | .str s => s
  | .parts _ => ""

/-! ## Health checking (`src/providers/health.ts`)

`checkProviderHealth` and `validateApiKey` both perform at most one chat
invocation through `callProvider`.  The embedding abstracts the two network
effects as inputs — `localRunning` (what `checkLocalProviderRunning` resolved
to) and `callResult` (what the chat invocation resolved to) — and returns,
next to the result, a `Bool` recording whether the chat invocation was issued
at all, so that the "no network call" branches are visible. -/

/-- `checkProviderHealth` of health.ts.  `latencyMs` is the measured
`Date.now() - startTime` of the chat call; `now` the `lastChecked` clock
read.  The second component is `true` exactly on the paths that reach the
test call. -/
def checkProviderHealth (provider : LLMProvider) (localRunning : Bool)
    (callResult : LLMResult) (latencyMs : Nat) (now : Nat) :
    ProviderHealth × Bool :=
  if provider.tier = ProviderTier.local ∧ localRunning = false then
    ({ providerId := provider.id, status := .unhealthy, latencyMs := none,
       lastChecked := now,
       error := some (provider.name ++ " is not running at "
         ++ provider.baseURL) }, false)
  else if ¬ provider.tier = ProviderTier.local ∧ provider.apiKey = "" then
    ({ providerId := provider.id, status := .unknown, latencyMs := none,
       lastChecked := now, error := some "No API key configured" }, false)
  else
    match callResult with
    | .success _ _ =>
        ({ providerId := provider.id,
           status := if 5000 < latencyMs then .degraded else .healthy,
           latencyMs := some latencyMs, lastChecked := now,
           error := none }, true)
    | .failure e =>
        ({ providerId := provider.id,
           status := if e.code = ErrorCode.rate_limit then .degraded
             else .unhealthy,
           latencyMs := some latencyMs, lastChecked := now,
           error := some e.message }, true)

/-- The `{valid, error?}` record `validateApiKey` resolves to. -/
structure KeyValidation where
  valid : Bool
  error : Option String
deriving DecidableEq, Repr

/-- `validateApiKey` of health.ts, with the same chat-call abstraction and
issued-call flag as `checkProviderHealth`. -/
def validateApiKey (provider : LLMProvider) (callResult : LLMResult) :
    KeyValidation × Bool :=
  if provider.apiKey = "" then
    ({ valid := false, error := some "No API key provided" }, false)
  else
    match callResult with
    | .success _ _ => ({ valid := true, error := none }, true)
    | .failure e =>
        if e.code = ErrorCode.auth_error then
          ({ valid := false, error := some "Invalid API key" }, true)
        else if e.code = ErrorCode.rate_limit then
          ({ valid := true, error := none }, true)
        else
          ({ valid := false, error := some e.message }, true)

/-! ## Fallback-chain construction

The chain is built in two stages.  The provider store's `getProviderChain`
(staged in the project README's embedded provider-store source) first sorts
the configured providers by the persisted `fallbackOrder` and then delegates
to `buildProviderChain` of `src/providers/fallback.ts`, whose source is not
among the staged files (only its import and call sites are) — that one
function is modelled from the spec. -/

/-- Modelled from the spec: `buildProviderChain` of src/providers/fallback.ts,
whose source file is not staged (only its import in the provider store and its
call there are).  Per §4.3: "given the full configured instance list and an
optional preferred-primary identifier, produce an ordered chain = [primary
instance if present and enabled] followed by all other enabled instances in
their existing relative order; if no primary is set or the named primary is
not enabled, the chain is simply all enabled instances in existing order",
with disabled instances excluded entirely.  Instance identifiers are unique in
a configured list (§3), so "all other enabled instances" is the enabled
instances whose identifier differs from the primary's. -/
def buildProviderChain (providers : List LLMProvider)
    (primaryProviderId : Option String) : List LLMProvider :=
  let enabledProviders := providers.filter (fun p => p.enabled)
  match primaryProviderId with
  | none => enabledProviders
  | some pid =>
    match enabledProviders.find? (fun p => p.id = pid) with
    | none => enabledProviders
    | some primary =>
        primary :: enabledProviders.filter (fun p => ¬ p.id = pid)

/-- The comparator key of the store's fallback sort:
`fallbackOrder.indexOf(p.id)`, with ids absent from the fallback order
(indexOf = -1) mapped to the sentinel 999 so that they order after every
present id. -/
def fallbackSortKey (fallbackOrder : List String) (p : LLMProvider) : Nat :=
  match fallbackOrder.findIdx? (fun id => id = p.id) with
  | some i => i
  | none => 999

/-- The store's `[...providers].sort((a, b) => aOrder - bOrder)`:
`Array.prototype.sort` is a stable sort, and this comparator induces a total
preorder on `fallbackSortKey`, under which the stable sorted permutation is
unique — realized here by a stable insertion sort. -/
def sortByFallbackOrder (fallbackOrder : List String)
    (providers : List LLMProvider) : List LLMProvider :=
  providers.insertionSort
    (fun a b => fallbackSortKey fallbackOrder a ≤ fallbackSortKey fallbackOrder b)

/-- `getProviderChain` of the provider store (the zustand store staged in the
README): reads the configured providers, the primary id and the persisted
fallback order, sorts the providers by fallback order, and builds the chain
via `buildProviderChain` (`primaryProviderId ?? undefined` folds the store's
`null` and `undefined` into one absent value, `none` here). -/
def getProviderChain (providers : List LLMProvider)
    (primaryProviderId : Option String) (fallbackOrder : List String) :
    List LLMProvider :=
  buildProviderChain (sortByFallbackOrder fallbackOrder providers)
    primaryProviderId

/-! ## Concrete instances used by closed checks -/

/-- A Groq instance as the settings layer would configure it. -/
def groqInstance : LLMProvider where
  id := "groq"
  name := "Groq"
  baseURL := "https://api.groq.com/openai/v1"
  apiKey := "gsk-test-key"
  model := "llama-3.3-70b-versatile"
  tier := .free
  maxTokens := none
  rateLimit := some ⟨30, 15000⟩
  enabled := true
  customHeaders := none

/-- An Anthropic instance with no instance-level custom headers. -/
def anthropicInstance : LLMProvider where
  id := "anthropic"
  name := "Anthropic (Claude)"
  baseURL := "https://api.anthropic.com/v1"
  apiKey := "sk-ant-test"
  model := "claude-sonnet-4-5-20250514"
  tier := .paid
  maxTokens := none
  rateLimit := none
  enabled := true
  customHeaders := none

/-- An Anthropic instance whose instance-level custom headers collide with the
registry definition's `anthropic-version` header and with `Content-Type`. -/
def anthropicOverridingInstance : LLMProvider :=
  { anthropicInstance with
    customHeaders := some [("anthropic-version", "override-attempt"),
                           ("Content-Type", "text/plain")] }

/-! ## Spec-side readings used to state claims -/

/-- The vendor's nested error object: the body's `error` field when that field
is a non-null object (`{error:{...}}` shape). -/
def nestedErrorObject (body : JsonValue) : Option JsonValue :=
  match jsGetField body "error" with
  | some e => if jsIsNonNullObject e then some e else none
  | none => none

/-- Stated from the amended claim's words: the `invalid_response` message is
the nested error object's string `message` when the body has that shape (the
generic message when that object has no string `message`), else a top-level
string `message` field, else the generic message naming the status. -/
def specInvalidResponseMessage (status : Nat) (body : JsonValue) : String :=
  match nestedErrorObject body with
  | some e =>
    match jsGetField e "message" with
    | some (.str m) => m
    | _ => "Request failed with status " ++ toString status
  | none =>
    match jsGetField body "message" with
    | some (.str m) => m
    | _ => "Request failed with status " ++ toString status

/-- Stated from the amended claim's words: the rate-limit hint is the body's
`retry_after` value times 1000 when that field is present with a nonzero
number, and 60000 milliseconds otherwise. -/
def specRetryAfterMs (body : JsonValue) : Int :=
  match jsGetField body "retry_after" with
  | some (.num n) => if n = 0 then 60000 else n * 1000
  | _ => 60000

/-! ## Shared lemmas -/

theorem jsHasField_obj_eq_isSome (fields : List (String × JsonValue))
    (k : String) :
    jsHasField (.obj fields) k
      = (fields.find? (fun kv => kv.1 = k)).isSome := by
  simp only [jsHasField]
  rw [Bool.eq_iff_iff]
  simp [List.any_eq_true, List.find?_isSome]

theorem parseError_auth (p : LLMProvider) (status : Nat) (body : JsonValue)
    (h : status = 401 ∨ status = 403) :
    parseError p status body =
      { providerId := p.id, code := .auth_error,
        message := "Invalid API key or unauthorized access",
        retryAfterMs := none } := by
  unfold parseError
  rw [if_pos h]

theorem parseError_429 (p : LLMProvider) (body : JsonValue) :
    parseError p 429 body =
      { providerId := p.id, code := .rate_limit,
        message := "Rate limit exceeded",
        retryAfterMs := some (specRetryAfterMs body) } := by
  unfold parseError
  rw [if_neg (by simp), if_pos rfl]
  simp only [ProviderError.mk.injEq, true_and, Option.some.injEq]
  cases body
  case obj fields =>
    rcases h : fields.find? (fun kv => kv.1 = "retry_after") with _ | kv
    · simp [specRetryAfterMs, jsGetField, jsIsNonNullObject,
        jsHasField_obj_eq_isSome, h]
    · rcases kv with ⟨k1, v⟩
      cases v <;>
        simp [specRetryAfterMs, jsGetField, jsIsNonNullObject,
          jsHasField_obj_eq_isSome, h]
  all_goals
    simp [specRetryAfterMs, jsGetField, jsIsNonNullObject, jsHasField]

theorem parseError_5xx (p : LLMProvider) (status : Nat) (body : JsonValue)
    (h : 500 ≤ status) :
    parseError p status body =
      { providerId := p.id, code := .network_error,
        message := "Server error: " ++ toString status,
        retryAfterMs := none } := by
  unfold parseError
  rw [if_neg (by omega), if_neg (by omega), if_pos h]

theorem parseError_low (p : LLMProvider) (status : Nat) (body : JsonValue)
    (h1 : ¬ (status = 401 ∨ status = 403)) (h2 : ¬ status = 429)
    (h3 : status < 500) :
    parseError p status body =
      { providerId := p.id, code := .invalid_response,
        message := specInvalidResponseMessage status body,
        retryAfterMs := none } := by
  unfold parseError
  rw [if_neg h1, if_neg h2, if_neg (by omega)]
  simp only [ProviderError.mk.injEq, true_and, and_true]
  cases body
  case obj fields =>
    simp only [jsIsNonNullObject, if_true, specInvalidResponseMessage,
      nestedErrorObject]
    rcases h : jsGetField (.obj fields) "error" with _ | e
    · simp [h]
    · cases e <;> simp [h, jsIsNonNullObject]
  all_goals
    simp [specInvalidResponseMessage, nestedErrorObject, jsIsNonNullObject,
      jsGetField]

/-- Claim C1 (corrected): for every provider and non-2xx status, `parseError`
classifies by status code — 401/403 give `auth_error`; 429 gives `rate_limit`
with `retryAfterMs` equal to the body's `retry_after` times 1000 when that
field holds a nonzero number and 60000 otherwise (a present but zero
`retry_after` is falsy in JS and also yields 60000); status ≥ 500 gives
`network_error`; any other non-2xx status gives `invalid_response`, with the
message from the nested `{error:{message}}` object when the body has that
shape, else from a top-level string `message` field, else a generic message
naming the status.  The two closed conjuncts check the spec's 429 examples
(`{retry_after: 2}` maps to 2000; an absent field maps to 60000). -/
theorem parseError_status_classification (p : LLMProvider) (status : Nat)
    (body : JsonValue) :
    ((status = 401 ∨ status = 403) →
      parseError p status body =
        { providerId := p.id, code := .auth_error,
          message := "Invalid API key or unauthorized access",
          retryAfterMs := none })
  ∧ (status = 429 →
      parseError p status body =
        { providerId := p.id, code := .rate_limit,
          message := "Rate limit exceeded",
          retryAfterMs := some (specRetryAfterMs body) })
  ∧ (500 ≤ status →
      parseError p status body =
        { providerId := p.id, code := .network_error,
          message := "Server error: " ++ toString status,
          retryAfterMs := none })
  ∧ (¬ (200 ≤ status ∧ status ≤ 299) → ¬ (status = 401 ∨ status = 403) →
      ¬ status = 429 → status < 500 →
      parseError p status body =
        { providerId := p.id, code := .invalid_response,
          message := specInvalidResponseMessage status body,
          retryAfterMs := none })
  ∧ parseError groqInstance 429 (.obj [("retry_after", .num 2)]) =
      { providerId := "groq", code := .rate_limit,
        message := "Rate limit exceeded", retryAfterMs := some 2000 }
  ∧ parseError groqInstance 429 (.obj []) =
      { providerId := "groq", code := .rate_limit,
        message := "Rate limit exceeded", retryAfterMs := some 60000 } := by
  refine ⟨parseError_auth p status body,
    fun h => by subst h; exact parseError_429 p body,
    parseError_5xx p status body,
    fun _ h1 h2 h3 => parseError_low p status body h1 h2 h3,
    by decide, by decide⟩

/-- Claim C1 counterexample: at a 429 response whose body is
`{retry_after: 0}` the code returns `retryAfterMs = 60000`, not the claimed
`0 × 1000 = 0` (JS truthiness treats a present zero as absent); and at a 400
response whose body is `{message: "boom"}` the code returns the message
`"boom"`, not the claimed generic message naming the status. -/
theorem parseError_truthiness_cex :
    (parseError groqInstance 429
      (.obj [("retry_after", .num 0)])).retryAfterMs = some 60000
  ∧ ¬ (parseError groqInstance 429
      (.obj [("retry_after", .num 0)])).retryAfterMs = some ((0 : Int) * 1000)
  ∧ (parseError groqInstance 400
      (.obj [("message", .str "boom")])).message = "boom"
  ∧ ¬ (parseError groqInstance 400
      (.obj [("message", .str "boom")])).message
        = "Request failed with status 400" := by
  decide

/-- Claim C2 (corrected): `callProvider` never escapes its boundary — every
fetch outcome maps to a tagged `LLMResult`.  A thrown `Error` named
`AbortError` (the expired deadline) yields `network_error` with a message
naming the effective timeout; any other thrown `Error` yields `network_error`
carrying the error's own message; a JSON-parse failure on a 2xx response
yields `network_error` carrying the parse error's message; a thrown non-`Error`
value yields `unknown`. -/
theorem callProvider_error_conversion (p : LLMProvider)
    (messages : List Message) (options : CallOptions) (outcome : FetchOutcome)
    (now : Nat) :
    ((∃ resp pid,
        callProvider p messages options outcome now = .success resp pid)
      ∨ (∃ e, callProvider p messages options outcome now = .failure e))
  ∧ (∀ name msg, outcome = .thrownError name msg → ¬ name = "AbortError" →
      callProvider p messages options outcome now =
        .failure { providerId := p.id, code := .network_error, message := msg,
                   retryAfterMs := none })
  ∧ (∀ msg, outcome = .thrownError "AbortError" msg →
      callProvider p messages options outcome now =
        .failure { providerId := p.id, code := .network_error,
                   message := "Request timed out after "
                     ++ toString (options.timeoutMs.getD 30000) ++ "ms",
                   retryAfterMs := none })
  ∧ (outcome = .thrownOther →
      callProvider p messages options outcome now =
        .failure { providerId := p.id, code := .unknown,
                   message := "Unknown error occurred",
                   retryAfterMs := none })
  ∧ (∀ status parseMsg textBody,
      outcome = .response status (.error parseMsg) textBody →
      200 ≤ status → status ≤ 299 →
      callProvider p messages options outcome now =
        .failure { providerId := p.id, code := .network_error,
                   message := parseMsg, retryAfterMs := none }) := by
  refine ⟨?_, ?_, ?_, ?_, ?_⟩
  · rcases h : callProvider p messages options outcome now with _ | e
    · exact .inl ⟨_, _, rfl⟩
    · exact .inr ⟨e, rfl⟩
  · rintro name msg rfl hne
    simp [callProvider, hne]
  · rintro msg rfl
    simp [callProvider, DEFAULT_TIMEOUT_MS]
  · rintro rfl
    rfl
  · rintro status parseMsg textBody rfl h1 h2
    simp [callProvider, h1, h2]

/-- Claim C2 counterexample: on a fetch rejection with an `Error` named
`AbortError` whose own message is `"boom"`, `callProvider` returns the timeout
message, not the error's message — so "an Error value yields `network_error`
carrying the error's message" fails as stated. -/
theorem callProvider_abort_message_cex :
    callProvider groqInstance [] {} (.thrownError "AbortError" "boom") 0 =
      .failure { providerId := "groq", code := .network_error,
                 message := "Request timed out after 30000ms",
                 retryAfterMs := none }
  ∧ ¬ ("Request timed out after 30000ms" = "boom") := by
  exact ⟨by decide, by decide⟩

/-- Claim C9 (confirmed): when the deadline expires (the underlying fetch
aborts, surfacing as an `AbortError`), `callProvider` returns a failure of
code `network_error` whose message names the effective timeout —
`options.timeoutMs` when given, 30000 otherwise — for every provider, message
list and option set. -/
theorem callProvider_timeout_classification (p : LLMProvider)
    (messages : List Message) (options : CallOptions) (abortMsg : String)
    (now : Nat) :
    callProvider p messages options (.thrownError "AbortError" abortMsg) now =
      .failure { providerId := p.id, code := .network_error,
                 message := "Request timed out after "
                   ++ toString (options.timeoutMs.getD 30000) ++ "ms",
                 retryAfterMs := none } := by
  simp [callProvider, DEFAULT_TIMEOUT_MS]

/-- Claim C10 (confirmed): `getResponseText` returns the first choice's
message content when that content is a plain string; it returns the empty
string both when the choice list is empty and when the first choice's content
is a part list — even one containing text parts (closed conjunct) — and it is
a total function. -/
theorem getResponseText_first_choice (r : ChatCompletionResponse) :
    (∀ s, (r.choices.head?).map (fun c => c.message.content)
        = some (.str s) → getResponseText r = s)
  ∧ (r.choices = [] → getResponseText r = "")
  ∧ (∀ ps, (r.choices.head?).map (fun c => c.message.content)
        = some (.parts ps) → getResponseText r = "")
  ∧ getResponseText
      { id := "x", object := "chat.completion", created := 0, model := "m",
        choices := [{ index := 0,
                      message := { role := .assistant,
                                   content := .parts [.text "inner text"] },
                      finish_reason := some "stop" }],
        usage := none } = "" := by
  refine ⟨?_, ?_, ?_, by decide⟩
  · intro s h
    simp [getResponseText, h]
  · intro h
    simp [getResponseText, h]
  · intro ps h
    simp [getResponseText, h]

/-- Claim C4 (confirmed): for every message list, the divergent-family
request-body builder pulls the first system-role message out as a top-level
`system` field holding its text content, keeps exactly the non-system messages
in the `messages` array (in order, translated), and sets `max_tokens` to the
caller's value, else the instance's value, else the default 2048.  The closed
conjunct checks the spec's example: `[system "S", user "U"]` with
`maxTokens = 50` produces `system = "S"`, `messages = [user "U"]`,
`max_tokens = 50`. -/
theorem buildRequestBody_anthropic_shape (provider : LLMProvider)
    (messages : List Message) (options : CallOptions) (maxTokens : Nat) :
    (isAnthropicProvider provider = true →
      buildRequestBody provider messages options =
        .anthropic provider.model
          (transformForAnthropic messages
            (options.maxTokens.getD (provider.maxTokens.getD 2048)))
          options.temperature)
  ∧ (transformForAnthropic messages maxTokens).system
      = (messages.find? (fun m => m.role = MessageRole.system)).map
          (fun m => getTextContent m.content)
  ∧ (transformForAnthropic messages maxTokens).messages
      = (messages.filter (fun m => ¬ m.role = MessageRole.system)).map
          (fun m => (m.role, toAnthropicContent m.content))
  ∧ (transformForAnthropic messages maxTokens).max_tokens = maxTokens
  ∧ buildRequestBody anthropicInstance
      [{ role := .system, content := .str "S" },
       { role := .user, content := .str "U" }]
      { maxTokens := some 50 }
    = .anthropic "claude-sonnet-4-5-20250514"
        { system := some "S",
          messages := [(MessageRole.user, AnthropicContent.str "U")],
          max_tokens := 50 } none := by
  refine ⟨?_, rfl, rfl, rfl, by decide⟩
  intro h
  simp [buildRequestBody, h, DEFAULT_MAX_TOKENS]

/-- Claim C6 (confirmed): divergent-family normalization produces a single
assistant choice whose content is the first text-typed content block (the
empty string when no text-typed block exists — last conjunct), whose
`finish_reason` is the raw `stop_reason`, and whose usage maps
`input_tokens`/`output_tokens` to `prompt_tokens`/`completion_tokens` with
`total_tokens` their sum.  The closed conjunct checks the spec's round-trip
example. -/
theorem transformAnthropicResponse_normalization (now : Nat)
    (r : AnthropicRawResponse) :
    (transformAnthropicResponse now r).id = r.id
  ∧ (transformAnthropicResponse now r).model = r.model
  ∧ (transformAnthropicResponse now r).choices
      = [{ index := 0,
           message := { role := .assistant,
                        content := .str (((r.content.find?
                          (fun c => c.type = "text")).map
                            (fun c => c.text)).getD "") },
           finish_reason := some r.stop_reason }]
  ∧ (transformAnthropicResponse now r).usage
      = some { prompt_tokens := r.usage.input_tokens,
               completion_tokens := r.usage.output_tokens,
               total_tokens := r.usage.input_tokens + r.usage.output_tokens }
  ∧ transformAnthropicResponse 0
      { id := "m1", content := [⟨"text", "hi"⟩], model := "x",
        stop_reason := "end_turn", usage := ⟨3, 1⟩ }
    = { id := "m1", object := "chat.completion", created := 0, model := "x",
        choices := [{ index := 0,
                      message := { role := .assistant, content := .str "hi" },
                      finish_reason := some "end_turn" }],
        usage := some { prompt_tokens := 3, completion_tokens := 1,
                        total_tokens := 4 } }
  ∧ (∀ blocks : List AnthropicContentBlock,
      (∀ b ∈ blocks, ¬ b.type = "text") →
      (transformAnthropicResponse now
          { r with content := blocks }).choices
        = [{ index := 0,
             message := { role := .assistant, content := .str "" },
             finish_reason := some r.stop_reason }]) := by
  refine ⟨rfl, rfl, rfl, rfl, by decide, ?_⟩
  intro blocks hb
  have hfind : blocks.find? (fun c => c.type = "text") = none :=
    List.find?_eq_none.mpr (fun b hbmem => by simpa using hb b hbmem)
  simp [transformAnthropicResponse, hfind]

/-- Claim C8 (confirmed): `validateApiKey` returns invalid without issuing the
test call when the credential is empty (issued-call flag `false`); otherwise it
issues the minimal test call and returns valid on success, invalid with
"Invalid API key" exactly on an `auth_error` failure, valid on a `rate_limit`
failure, and invalid carrying the failure's message on any other failure. -/
theorem validateApiKey_classification (p : LLMProvider)
    (callResult : LLMResult) :
    (p.apiKey = "" →
      validateApiKey p callResult =
        ({ valid := false, error := some "No API key provided" }, false))
  ∧ (∀ resp pid, ¬ p.apiKey = "" → callResult = .success resp pid →
      validateApiKey p callResult = ({ valid := true, error := none }, true))
  ∧ (∀ e, ¬ p.apiKey = "" → callResult = .failure e →
      e.code = .auth_error →
      validateApiKey p callResult =
        ({ valid := false, error := some "Invalid API key" }, true))
  ∧ (∀ e, ¬ p.apiKey = "" → callResult = .failure e →
      e.code = .rate_limit →
      validateApiKey p callResult = ({ valid := true, error := none }, true))
  ∧ (∀ e, ¬ p.apiKey = "" → callResult = .failure e →
      ¬ e.code = .auth_error → ¬ e.code = .rate_limit →
      validateApiKey p callResult =
        ({ valid := false, error := some e.message }, true)) := by
  refine ⟨?_, ?_, ?_, ?_, ?_⟩
  · intro h
    simp [validateApiKey, h]
  · rintro resp pid h rfl
    simp [validateApiKey, h]
  · rintro e h rfl hcode
    simp [validateApiKey, h, hcode]
  · rintro e h rfl hcode
    have : ¬ e.code = ErrorCode.auth_error := by
      rw [hcode]; intro hcontra; exact ErrorCode.noConfusion hcontra
    simp [validateApiKey, h, hcode, this]
  · rintro e h rfl h1 h2
    simp [validateApiKey, h, h1, h2]

/-- The selection stage of the chain construction, on an arbitrary (already
sorted) instance list: only enabled members; with no primary the enabled
instances in order; with a primary, primary-first when an enabled instance
carries it. -/
theorem buildProviderChain_spec (providers : List LLMProvider)
    (primaryId : Option String) :
    (∀ p ∈ buildProviderChain providers primaryId, p.enabled = true)
  ∧ (primaryId = none →
      buildProviderChain providers primaryId
        = providers.filter (fun p => p.enabled))
  ∧ (∀ pid, primaryId = some pid →
      ((providers.filter (fun p => p.enabled)).find? (fun p => p.id = pid)
          = none →
        buildProviderChain providers primaryId
          = providers.filter (fun p => p.enabled))
      ∧ (∀ primary,
          (providers.filter (fun p => p.enabled)).find? (fun p => p.id = pid)
              = some primary →
          buildProviderChain providers primaryId =
            primary :: (providers.filter (fun p => p.enabled)).filter
              (fun p => ¬ p.id = pid))) := by
  refine ⟨?_, ?_, ?_⟩
  · intro p hp
    rcases primaryId with _ | pid
    · exact (List.mem_filter.mp (by simpa [buildProviderChain] using hp)).2
    · rcases hfind : (providers.filter (fun q => q.enabled)).find?
        (fun q => q.id = pid) with _ | primary
      · simp only [buildProviderChain, hfind] at hp
        exact (List.mem_filter.mp hp).2
      · simp only [buildProviderChain, hfind, List.mem_cons] at hp
        rcases hp with rfl | hp
        · exact (List.mem_filter.mp
            (List.mem_of_find?_eq_some hfind)).2
        · exact (List.mem_filter.mp (List.mem_filter.mp hp).1).2
  · rintro rfl
    rfl
  · rintro pid rfl
    constructor
    · intro hfind
      simp [buildProviderChain, hfind]
    · intro primary hfind
      simp [buildProviderChain, hfind]

/-- Claim C3 (corrected): the repository's chain construction first stably
sorts the configured instance list by position in the persisted fallback
order — so "existing relative order" survives only between instances with
equal fallback keys — and then selects.  The conjuncts: every chain member is
enabled (disabled instances never appear); the sorted list is a permutation of
the configured list; it is non-decreasing in the fallback key; every sublist
already non-decreasing in the key keeps its order (stability, so ids absent
from the fallback order keep their existing relative order after all present
ones); with no primary the chain is exactly the enabled instances of the
sorted list; with a primary identifier the chain is the first enabled sorted
instance carrying it followed by the other enabled instances in sorted order,
or exactly the enabled sorted instances when no enabled instance carries
it. -/
theorem getProviderChain_construction (providers : List LLMProvider)
    (primaryId : Option String) (fallbackOrder : List String) :
    (∀ p ∈ getProviderChain providers primaryId fallbackOrder,
      p.enabled = true)
  ∧ (sortByFallbackOrder fallbackOrder providers).Perm providers
  ∧ (sortByFallbackOrder fallbackOrder providers).Sorted
      (fun a b =>
        fallbackSortKey fallbackOrder a ≤ fallbackSortKey fallbackOrder b)
  ∧ (∀ c : List LLMProvider,
      c.Pairwise (fun a b =>
        fallbackSortKey fallbackOrder a ≤ fallbackSortKey fallbackOrder b) →
      c.Sublist providers →
      c.Sublist (sortByFallbackOrder fallbackOrder providers))
  ∧ (primaryId = none →
      getProviderChain providers primaryId fallbackOrder
        = (sortByFallbackOrder fallbackOrder providers).filter
            (fun p => p.enabled))
  ∧ (∀ pid, primaryId = some pid →
      (((sortByFallbackOrder fallbackOrder providers).filter
          (fun p => p.enabled)).find? (fun p => p.id = pid) = none →
        getProviderChain providers primaryId fallbackOrder
          = (sortByFallbackOrder fallbackOrder providers).filter
              (fun p => p.enabled))
      ∧ (∀ primary,
          ((sortByFallbackOrder fallbackOrder providers).filter
            (fun p => p.enabled)).find? (fun p => p.id = pid)
              = some primary →
          getProviderChain providers primaryId fallbackOrder =
            primary :: ((sortByFallbackOrder fallbackOrder providers).filter
              (fun p => p.enabled)).filter (fun p => ¬ p.id = pid))) := by
  obtain ⟨h1, h2, h3⟩ :=
    buildProviderChain_spec (sortByFallbackOrder fallbackOrder providers)
      primaryId
  refine ⟨h1, List.perm_insertionSort _ _, ?_, ?_, h2, h3⟩
  · haveI : IsTotal LLMProvider (fun a b =>
        fallbackSortKey fallbackOrder a ≤ fallbackSortKey fallbackOrder b) :=
      ⟨fun a b => Nat.le_total _ _⟩
    haveI : IsTrans LLMProvider (fun a b =>
        fallbackSortKey fallbackOrder a ≤ fallbackSortKey fallbackOrder b) :=
      ⟨fun _ _ _ hab hbc => Nat.le_trans hab hbc⟩
    exact List.sorted_insertionSort _ providers
  · intro c hc hsub
    exact List.sublist_insertionSort hc hsub

/-- Claim C3 counterexample: with the registry's default fallback order, an
instance list `[anthropic, groq]` (both enabled, no primary set) yields the
chain `[groq, anthropic]` — not the claimed "all enabled instances in existing
order", because the persisted fallback order places `groq` (position 0) before
`anthropic` (absent, sentinel 999). -/
theorem getProviderChain_fallback_order_cex :
    getProviderChain [anthropicInstance, groqInstance] none
        DEFAULT_FALLBACK_ORDER
      = [groqInstance, anthropicInstance]
  ∧ [anthropicInstance, groqInstance].filter (fun p => p.enabled)
      = [anthropicInstance, groqInstance]
  ∧ ¬ getProviderChain [anthropicInstance, groqInstance] none
        DEFAULT_FALLBACK_ORDER
      = [anthropicInstance, groqInstance] := by
  decide

/-- Claim C7 (confirmed): the health probe reports `unhealthy` immediately —
without issuing the chat call — when the instance is local-tier and the
models-listing reachability check failed; `unknown` with an explanatory
message and no call when the instance is non-local (exactly the catalog's
credential-requiring tiers — last conjunct) and no credential is set;
otherwise it issues the minimal chat call and reports `healthy` on success at
or under the 5000 ms threshold, `degraded` on success over it, `degraded` on a
`rate_limit` failure, and `unhealthy` carrying the failure's message on any
other failure. -/
theorem checkProviderHealth_classification (p : LLMProvider)
    (localRunning : Bool) (callResult : LLMResult) (latencyMs now : Nat) :
    (p.tier = .local → localRunning = false →
      checkProviderHealth p localRunning callResult latencyMs now =
        ({ providerId := p.id, status := .unhealthy, latencyMs := none,
           lastChecked := now,
           error := some (p.name ++ " is not running at " ++ p.baseURL) },
         false))
  ∧ (¬ p.tier = .local → p.apiKey = "" →
      checkProviderHealth p localRunning callResult latencyMs now =
        ({ providerId := p.id, status := .unknown, latencyMs := none,
           lastChecked := now, error := some "No API key configured" },
         false))
  ∧ (∀ resp pid, (p.tier = .local → localRunning = true) →
      (¬ p.tier = .local → ¬ p.apiKey = "") →
      callResult = .success resp pid → latencyMs ≤ 5000 →
      checkProviderHealth p localRunning callResult latencyMs now =
        ({ providerId := p.id, status := .healthy,
           latencyMs := some latencyMs, lastChecked := now, error := none },
         true))
  ∧ (∀ resp pid, (p.tier = .local → localRunning = true) →
      (¬ p.tier = .local → ¬ p.apiKey = "") →
      callResult = .success resp pid → 5000 < latencyMs →
      checkProviderHealth p localRunning callResult latencyMs now =
        ({ providerId := p.id, status := .degraded,
           latencyMs := some latencyMs, lastChecked := now, error := none },
         true))
  ∧ (∀ e, (p.tier = .local → localRunning = true) →
      (¬ p.tier = .local → ¬ p.apiKey = "") →
      callResult = .failure e → e.code = .rate_limit →
      checkProviderHealth p localRunning callResult latencyMs now =
        ({ providerId := p.id, status := .degraded,
           latencyMs := some latencyMs, lastChecked := now,
           error := some e.message }, true))
  ∧ (∀ e, (p.tier = .local → localRunning = true) →
      (¬ p.tier = .local → ¬ p.apiKey = "") →
      callResult = .failure e → ¬ e.code = .rate_limit →
      checkProviderHealth p localRunning callResult latencyMs now =
        ({ providerId := p.id, status := .unhealthy,
           latencyMs := some latencyMs, lastChecked := now,
           error := some e.message }, true))
  ∧ (∀ c ∈ PROVIDER_CONFIGS, c.requiresApiKey = true ↔ ¬ c.tier = .local) := by
  have guards : ∀ (g1 : p.tier = ProviderTier.local → localRunning = true)
      (_ : ¬ p.tier = ProviderTier.local → ¬ p.apiKey = ""),
      ¬ (p.tier = ProviderTier.local ∧ localRunning = false) := by
    rintro g1 g2 ⟨ht, hr⟩
    rw [g1 ht] at hr
    exact absurd hr (by decide)
  have guards2 : ∀ (_ : p.tier = ProviderTier.local → localRunning = true)
      (g2 : ¬ p.tier = ProviderTier.local → ¬ p.apiKey = ""),
      ¬ (¬ p.tier = ProviderTier.local ∧ p.apiKey = "") := by
    rintro g1 g2 ⟨ht, hk⟩
    exact g2 ht hk
  refine ⟨?_, ?_, ?_, ?_, ?_, ?_, by decide⟩
  · intro ht hr
    simp [checkProviderHealth, ht, hr]
  · intro ht hk
    simp [checkProviderHealth, ht, hk]
  · rintro resp pid g1 g2 rfl hlat
    have : ¬ 5000 < latencyMs := by omega
    simp [checkProviderHealth, guards g1 g2, guards2 g1 g2, this]
  · rintro resp pid g1 g2 rfl hlat
    simp [checkProviderHealth, guards g1 g2, guards2 g1 g2, hlat]
  · rintro e g1 g2 rfl hcode
    simp [checkProviderHealth, guards g1 g2, guards2 g1 g2, hcode]
  · rintro e g1 g2 rfl hcode
    simp [checkProviderHealth, guards g1 g2, guards2 g1 g2, hcode]

/-! ## Header-map lemmas toward the buildHeaders claim -/

theorem headerLookup_append (a b : List (String × String)) (k : String) :
    headerLookup (a ++ b) k = (headerLookup b k).or (headerLookup a k) := by
  simp only [headerLookup, List.reverse_append, List.find?_append]
  rcases h : List.find? (fun kv => kv.1 = k) b.reverse with _ | kv <;>
    simp [h, Option.or]

theorem headerLookup_eq_none (hs : List (String × String)) (k : String)
    (h : hs.any (fun kv => kv.1 = k) = false) :
    headerLookup hs k = none := by
  have hnone : hs.reverse.find? (fun kv => kv.1 = k) = none := by
    rw [List.find?_eq_none]
    intro kv hkv
    simp only [List.mem_reverse] at hkv
    intro hp
    have htrue : hs.any (fun kv => kv.1 = k) = true :=
      List.any_eq_true.mpr ⟨kv, hkv, hp⟩
    rw [h] at htrue
    exact Bool.false_ne_true htrue
  simp [headerLookup, hnone]

/-- The explicit append normal form of `buildHeaders`. -/
theorem buildHeaders_eq (p : LLMProvider) :
    buildHeaders p =
      (([("Content-Type", "application/json")]
        ++ (if p.apiKey = "" then []
            else if isAnthropicProvider p then [("x-api-key", p.apiKey)]
            else [("Authorization", "Bearer " ++ p.apiKey)]))
        ++ (p.customHeaders.getD []))
        ++ (match getProviderById p.id with
            | some config => config.customHeaders.getD []
            | none => []) := by
  simp only [buildHeaders]
  split <;> split <;> simp

/-- Whether the instance's custom headers or its registry definition's custom
headers define the key `k`. -/
def customHeadersDefine (p : LLMProvider) (k : String) : Bool :=
  (p.customHeaders.getD []).any (fun kv => kv.1 = k)
    || ((match getProviderById p.id with
         | some config => config.customHeaders.getD []
         | none => []).any (fun kv => kv.1 = k))

/-- The registry definition's custom-header lookup for the instance's id. -/
def configHeaderLookup (p : LLMProvider) (k : String) : Option String :=
  headerLookup (match getProviderById p.id with
    | some config => config.customHeaders.getD []
    | none => []) k

/-- Claim C5 (corrected): the built header map starts from a JSON content
type, which survives whenever no custom header redefines it; a nonempty
credential is attached as `x-api-key` for the divergent family and as an
`Authorization` bearer token otherwise, whenever no custom header redefines
those keys; extra headers of both the instance and its ProviderDefinition are
merged in, and definition-level headers override instance-specific headers
when both define the same key (the reverse of the claimed precedence).  The
closed conjunct shows the definition's `anthropic-version` header merged into
a plain instance's map. -/
theorem buildHeaders_spec (p : LLMProvider) :
    (customHeadersDefine p "Content-Type" = false →
      headerLookup (buildHeaders p) "Content-Type" = some "application/json")
  ∧ (¬ p.apiKey = "" → isAnthropicProvider p = true →
      customHeadersDefine p "x-api-key" = false →
      headerLookup (buildHeaders p) "x-api-key" = some p.apiKey)
  ∧ (¬ p.apiKey = "" → isAnthropicProvider p = false →
      customHeadersDefine p "Authorization" = false →
      headerLookup (buildHeaders p) "Authorization"
        = some ("Bearer " ++ p.apiKey))
  ∧ (∀ k v, configHeaderLookup p k = some v →
      headerLookup (buildHeaders p) k = some v)
  ∧ headerLookup (buildHeaders anthropicInstance) "anthropic-version"
      = some "2023-06-01" := by
  refine ⟨?_, ?_, ?_, ?_, by decide⟩
  · intro h
    simp only [customHeadersDefine, Bool.or_eq_false_iff] at h
    obtain ⟨h1, h2⟩ := h
    rw [buildHeaders_eq]
    simp only [headerLookup_append]
    rw [headerLookup_eq_none _ _ h2, headerLookup_eq_none _ _ h1]
    split <;> (try split) <;> simp [headerLookup, Option.or]
  · intro hkey hanth h
    simp only [customHeadersDefine, Bool.or_eq_false_iff] at h
    obtain ⟨h1, h2⟩ := h
    rw [buildHeaders_eq]
    simp only [headerLookup_append]
    rw [headerLookup_eq_none _ _ h2, headerLookup_eq_none _ _ h1,
      if_neg hkey]
    simp [hanth, headerLookup, Option.or]
  · intro hkey hanth h
    simp only [customHeadersDefine, Bool.or_eq_false_iff] at h
    obtain ⟨h1, h2⟩ := h
    rw [buildHeaders_eq]
    simp only [headerLookup_append]
    rw [headerLookup_eq_none _ _ h2, headerLookup_eq_none _ _ h1,
      if_neg hkey]
    simp [hanth, headerLookup, Option.or]
  · intro k v hv
    simp only [configHeaderLookup] at hv
    rw [buildHeaders_eq, headerLookup_append, hv]
    simp [Option.or]

/-- Claim C5 counterexample: on an Anthropic instance whose instance-level
custom headers set `anthropic-version` to `"override-attempt"` and
`Content-Type` to `"text/plain"`, the built map resolves `anthropic-version`
to the registry definition's `"2023-06-01"` (definition-level headers are
assigned last, overriding the instance) and `Content-Type` to the instance's
`"text/plain"` (the JSON content type is not preserved). -/
theorem buildHeaders_precedence_cex :
    headerLookup (buildHeaders anthropicOverridingInstance) "anthropic-version"
      = some "2023-06-01"
  ∧ ¬ headerLookup (buildHeaders anthropicOverridingInstance)
      "anthropic-version" = some "override-attempt"
  ∧ headerLookup (buildHeaders anthropicOverridingInstance) "Content-Type"
      = some "text/plain"
  ∧ ¬ headerLookup (buildHeaders anthropicOverridingInstance) "Content-Type"
      = some "application/json" := by
  decide

end ScreenTutor
